import Mathlib

/-!
Verification of the medi-care backend booking-and-payment core (`src/app.py`)
against its natural-language specification.

The Python source is shallowly embedded: the Firestore document store becomes
an explicit `DB` value threaded through each operation, monetary amounts become
`Rat`, nondeterministic inputs of the code (the wall-clock timestamps from
`datetime.now()`, the store-assigned document ids, and the random OTP) become
explicit parameters, and Python exceptions (`KeyError` on a missing intent
field) become `Except` error values produced at the same program points.
-/

namespace MediCare

/-- Split a character list at every occurrence of `sep`, keeping empty
segments (the behavior of `str.split(sep)`). -/
def splitChars (sep : Char) : List Char → List (List Char)
  | [] => [[]]
  | c :: cs =>
    let r := splitChars sep cs
    if c = sep then [] :: r
    else
      match r with
      | seg :: rest => (c :: seg) :: rest
      | [] => [[c]]

/-- The numeric value of a digit string, most significant digit first. -/
def digitsVal (l : List Char) : Nat :=
  l.foldl (fun a c => a * 10 + (c.toNat - 48)) 0

/-- A 1-or-2-digit decimal field bounded by `hi`, as accepted by the
`%H`/`%M`/`%m`/`%d` directives of `datetime.strptime`. -/
def parseField2 (s : List Char) (hi : Nat) : Option Nat :=
  if 1 ≤ s.length ∧ s.length ≤ 2 ∧ s.all Char.isDigit then
    if digitsVal s ≤ hi then some (digitsVal s) else none
  else none

/-- Model of `datetime.strptime(s, "%H:%M")`, restricted to its time-of-day result:
an hour of 1-2 digits in 0..23, a colon, and a minute of 1-2 digits in 0..59,
consuming the whole string. -/
def parseHHMM (s : String) : Option (Nat × Nat) :=
  match splitChars (Char.ofNat 0x3a) s.data with
  | [h, m] =>
    match parseField2 h 23, parseField2 m 59 with
    | some hv, some mv => some (hv, mv)
    | _, _ => none
  | _ => none

def isLeapYear (y : Nat) : Bool :=
  (y % 4 == 0 && y % 100 != 0) || y % 400 == 0

def daysInMonth (y m : Nat) : Nat :=
  if m == 2 then (if isLeapYear y then 29 else 28)
  else if m == 4 || m == 6 || m == 9 || m == 11 then 30
  else 31

/-- Model of `datetime.strptime(s, "%Y-%m-%d")`: a 4-digit year (at least 1), a month
in 1..12 and a day valid for that month, each of 1-2 digits. -/
def parseDate (s : String) : Option (Nat × Nat × Nat) :=
  match splitChars (Char.ofNat 0x2d) s.data with
  | [ys, ms, ds] =>
    if ys.length = 4 ∧ ys.all Char.isDigit then
      match parseField2 ms 12, parseField2 ds 31 with
      | some m, some d =>
        let y := digitsVal ys
        if 1 ≤ y ∧ 1 ≤ m ∧ 1 ≤ d ∧ d ≤ daysInMonth y m then some (y, m, d) else none
      | _, _ => none
    else none
  | _ => none

/-- Python `timedelta` addition on a time of day, wrapping at midnight, as the
`datetime` sum does before `strftime("%H:%M")` reads the time back. -/
def addMinutes (t : Nat × Nat) (delta : Nat) : Nat × Nat :=
  let total := (t.1 * 60 + t.2 + delta) % (24 * 60)
  (total / 60, total % 60)

/-- The decimal digit character for `n < 10`. -/
def digitChar (n : Nat) : Char :=
  Char.ofNat (0x30 + n)

/-- Zero-padded 2-digit decimal rendering of `n < 100`, as `strftime`
prints `%H` and `%M`. -/
def pad2 (n : Nat) : List Char :=
  [digitChar (n / 10), digitChar (n % 10)]

/-- Rendering `strftime("%H:%M")` of a time of day. -/
def formatHHMM (t : Nat × Nat) : String :=
  String.mk (pad2 t.1 ++ Char.ofNat 0x3a :: pad2 t.2)

/-! ## Data model (the Firestore document shapes of `src/app.py`) -/

structure TimeSlot where
  id : String
  doctorId : String
  date : String
  startTime : String
  isBooked : Bool
deriving DecidableEq

structure Doctor where
  name : String
  specialty : String
  feeInPerson : Option Rat
  feeTelemedicine : Option Rat
deriving DecidableEq

structure Patient where
  id : String
  email : String
  balance : Rat
  updatedAt : Option String
deriving DecidableEq

structure Appointment where
  createdAt : String
  date : String
  doctorId : String
  doctorName : String
  endTime : String
  notes : String
  patientEmail : String
  patientId : String
  patientName : String
  reason : String
  specialty : String
  startTime : String
  status : String
  type : String
  updatedAt : String
  cost : Rat
  isPaid : Option Bool
  paymentDate : Option String
  transactionId : Option String
deriving DecidableEq

structure Transaction where
  amount : Rat
  balanceAfter : Rat
  description : String
  timestamp : String
  type : String
  userId : String
  status : String
  otp : String
  patientEmail : String
deriving DecidableEq

/-- The shared Firestore state: the five collections `app.py` touches.
Document ids are the `String` keys (for `TimeSlot`, the `id` field). -/
structure DB where
  timeSlots : List TimeSlot
  doctors : List (String × Doctor)
  patients : List Patient
  appointments : List (String × Appointment)
  transactions : List (String × Transaction)
deriving DecidableEq

/-! ## Intent extraction (`parse_appointment_details`, lines 293-319) -/

/-- The labeled fields that the regex pass of `parse_appointment_details`
extracts from the assistant's text; a field absent from the text is `none`. -/
structure RawIntent where
  specialty : Option String
  doctorId : Option String
  doctorName : Option String
  date : Option String
  startTime : Option String
  reason : Option String
  type : Option String
deriving DecidableEq

/-- The returned intent dictionary: the raw fields plus the derived
`endTime`, which only exists when `startTime` parsed as `%H:%M`. -/
structure AppointmentDetails where
  specialty : Option String
  doctorId : Option String
  doctorName : Option String
  date : Option String
  startTime : Option String
  reason : Option String
  type : Option String
  endTime : Option String
deriving DecidableEq

/-- Lines 305-319 of `parse_appointment_details`: given the regex-extracted
fields, derive `endTime = startTime + 30 minutes` when `startTime` parses as
`%H:%M`, and leave `endTime` unset when parsing fails (the bare `except:
pass`). The regex extraction itself is abstracted into the `RawIntent`
input; it never produces an `endTime` field. -/
def parse_appointment_details (raw : RawIntent) : AppointmentDetails :=
  { specialty := raw.specialty
    doctorId := raw.doctorId
    doctorName := raw.doctorName
    date := raw.date
    startTime := raw.startTime
    reason := raw.reason
    type := raw.type
    endTime :=
      match raw.startTime with
      | some s => (parseHHMM s).map (fun t => formatHHMM (addMinutes t 30))
      | none => none }

/-! ## Availability check (`check_doctor_availability`, lines 109-124) -/

/-- Model of `check_doctor_availability`: parses the date and the time joined by a space with
`"%Y-%m-%d %H:%M"` (any parse failure is caught and yields `False`), then
queries `timeSlots` for a document with the given identity and
`isBooked == False`. -/
def check_doctor_availability (db : DB) (doctorId date time : String) : Bool :=
  if (parseDate date).isSome ∧ (parseHHMM time).isSome then
    db.timeSlots.any fun s =>
      s.doctorId == doctorId && s.date == date && s.startTime == time && s.isBooked == false
  else false

/-! ## Booking (`book_appointment`, lines 137-213) -/

structure PatientInfo where
  id : String
  name : String
  email : String
deriving DecidableEq

/-- The failure outcomes of `book_appointment`. `slotUnavailable` and
`doctorNotFound` are the two explicit error returns; `bookingException k`
is the catch-all `except` path reached when the intent dictionary lacks
required key `k` (Python `KeyError`). `incompleteIntent` is the
specification's error kind for an incomplete intent; the code has no
corresponding return site. -/
inductive BookError where
  | slotUnavailable
  | doctorNotFound
  | bookingException (key : String)
  | incompleteIntent
deriving DecidableEq

/-- The successful return dictionary of `book_appointment`. -/
structure BookingSuccess where
  appointmentId : String
  doctorName : String
  date : String
  time : String
  cost : Rat
  otp : String
  confirmationNumber : String
deriving DecidableEq

/-- What the read-only phase of `book_appointment` determines before the
first write: the slot identity to mark and the appointment document to add. -/
structure BookingPlan where
  slotDoctorId : String
  slotDate : String
  slotStartTime : String
  doctorName : String
  cost : Rat
  appointment : Appointment
deriving DecidableEq

/-- Lines 140-181 of `book_appointment`: everything before the first store
write. Intent fields are read in the order the code first touches them
(`doctorId`, `date`, `startTime` in the availability call; `type` in the
cost computation; `endTime` then `reason` in the `appointment_data`
literal), so a missing field raises at the same point it would in Python.
`now` is the `datetime.now().isoformat()` timestamp. -/
def book_phase1 (db : DB) (patient_info : PatientInfo) (d : AppointmentDetails)
    (now : String) : Except BookError BookingPlan :=
  match d.doctorId with
  | none => .error (.bookingException "doctorId")
  | some doctorId =>
    match d.date with
    | none => .error (.bookingException "date")
    | some date =>
      match d.startTime with
      | none => .error (.bookingException "startTime")
      | some startTime =>
        if ¬ check_doctor_availability db doctorId date startTime then
          .error .slotUnavailable
        else
          match db.doctors.lookup doctorId with
          | none => .error .doctorNotFound
          | some doctor =>
            match d.type with
            | none => .error (.bookingException "type")
            | some ty =>
              let cost :=
                (if ty = "in-person" then doctor.feeInPerson else doctor.feeTelemedicine).getD 100
              match d.endTime with
              | none => .error (.bookingException "endTime")
              | some endTime =>
                match d.reason with
                | none => .error (.bookingException "reason")
                | some reason =>
                  .ok { slotDoctorId := doctorId, slotDate := date, slotStartTime := startTime
                        doctorName := doctor.name, cost := cost
                        appointment :=
                          { createdAt := now, date := date, doctorId := doctorId
                            doctorName := doctor.name, endTime := endTime, notes := ""
                            patientEmail := patient_info.email, patientId := patient_info.id
                            patientName := patient_info.name, reason := reason
                            specialty := doctor.specialty, startTime := startTime
                            status := "pending_payment", type := ty, updatedAt := now
                            cost := cost, isPaid := none, paymentDate := none
                            transactionId := none } }

/-- Python string slicing `s[:n]`, by code point. -/
def strTake (s : String) (n : Nat) : String :=
  String.mk (s.data.take n)

/-- A write issued against the store, in program order. -/
inductive WriteOp where
  | addAppointment (id : String)
  | markSlotBooked (slotId : String)
deriving DecidableEq

/-- Lines 186-192: the `timeSlots` query (`doctorId`, `date`, `startTime`,
`limit(1)` — note it does not filter on `isBooked`) followed by the
`update({'isBooked': True})` on the hit. Returns the updated collection and
the id of the updated document, if any. -/
def setBookedFirst : List TimeSlot → String → String → String →
    List TimeSlot × Option String
  | [], _, _, _ => ([], none)
  | s :: rest, doctorId, date, startTime =>
    if s.doctorId = doctorId ∧ s.date = date ∧ s.startTime = startTime then
      ({ s with isBooked := true } :: rest, some s.id)
    else
      let r := setBookedFirst rest doctorId date startTime
      (s :: r.1, r.2)

/-- Lines 183-192 of `book_appointment`: the write phase, in program order —
first `db.collection('appointments').add(appointment_data)`, then the slot
update. `apptId` is the store-assigned appointment document id. -/
def book_phase2 (db : DB) (plan : BookingPlan) (apptId : String) :
    DB × List WriteOp :=
  let db1 : DB := { db with appointments := db.appointments ++ [(apptId, plan.appointment)] }
  let marked := setBookedFirst db1.timeSlots plan.slotDoctorId plan.slotDate plan.slotStartTime
  let ops := WriteOp.addAppointment apptId ::
    (match marked.2 with
     | some slotId => [WriteOp.markSlotBooked slotId]
     | none => [])
  ({ db1 with timeSlots := marked.1 }, ops)

instance {ε α : Type} [DecidableEq ε] [DecidableEq α] : DecidableEq (Except ε α) := fun a b =>
  match a, b with
  | .error e1, .error e2 =>
    if h : e1 = e2 then .isTrue (by rw [h]) else .isFalse (by simp [h])
  | .ok v1, .ok v2 =>
    if h : v1 = v2 then .isTrue (by rw [h]) else .isFalse (by simp [h])
  | .error _, .ok _ => .isFalse (by simp)
  | .ok _, .error _ => .isFalse (by simp)

/-- The outcome of one `book_appointment` call: its return value, the store
afterwards, and the writes it performed in order. -/
structure BookOutcome where
  result : Except BookError BookingSuccess
  db : DB
  writes : List WriteOp
deriving DecidableEq

/-- Turn a phase-1 result into the final outcome: run the writes and build
the success dictionary (lines 194-206). `nowDate8` is
`datetime.now().strftime('%Y%m%d')` — the wall clock at the call, not the
appointment's `date` field — and `otp` is the `random.randint(100000,
999999)` draw. -/
def book_commit (db : DB) (r : Except BookError BookingPlan)
    (apptId otp nowDate8 : String) : BookOutcome :=
  match r with
  | .error e => { result := .error e, db := db, writes := [] }
  | .ok plan =>
    let w := book_phase2 db plan apptId
    { result := .ok
        { appointmentId := apptId, doctorName := plan.doctorName
          date := plan.slotDate, time := plan.slotStartTime, cost := plan.cost
          otp := otp
          confirmationNumber := "APT-" ++ nowDate8 ++ "-" ++ strTake apptId 6 }
      db := w.1, writes := w.2 }

/-- Model of `book_appointment`, run to completion against a store no other request
touches in between. -/
def book_appointment (db : DB) (patient_info : PatientInfo)
    (d : AppointmentDetails) (now nowDate8 apptId otp : String) : BookOutcome :=
  book_commit db (book_phase1 db patient_info d now) apptId otp nowDate8

/-- Two `book_appointment` calls racing on the same store, at the coarsest
interleaving the code admits: each call's availability query (one store
read) and its write sequence are steps; here both queries run against the
initial store before either call writes (query A, query B, writes A,
writes B). -/
def book_race (db : DB)
    (p1 : PatientInfo) (d1 : AppointmentDetails) (now1 nowDate1 apptId1 otp1 : String)
    (p2 : PatientInfo) (d2 : AppointmentDetails) (now2 nowDate2 apptId2 otp2 : String) :
    BookOutcome × BookOutcome :=
  let c1 := book_phase1 db p1 d1 now1
  let c2 := book_phase1 db p2 d2 now2
  let o1 := book_commit db c1 apptId1 otp1 nowDate1
  let o2 := book_commit o1.db c2 apptId2 otp2 nowDate2
  (o1, o2)

/-! ## Payment (`process_payment`, lines 215-291, and `get_patient_by_email`,
lines 126-135) -/

/-- Model of `get_patient_by_email`: `patients` filtered on `email`, `limit(1)` —
the first document with that email, or `None`. -/
def get_patient_by_email (db : DB) (email : String) : Option Patient :=
  db.patients.find? fun p => p.email == email

/-- Line 218: `not otp or len(otp) != 6 or not otp.isdigit()`, negated.
(`otp.isdigit()` is false on the empty string, so the `not otp` clause is
subsumed by the length test.) -/
def valid_otp_format (otp : String) : Bool :=
  otp.data.length == 6 && otp.data.all Char.isDigit

/-- The failure outcomes of `process_payment`: the four explicit error
returns. `appointmentAlreadyPaid` is the specification's error kind for a
replayed payment; the code has no corresponding return site. -/
inductive PayError where
  | invalidOTP
  | patientNotFound
  | insufficientFunds
  | appointmentNotFound
  | appointmentAlreadyPaid
deriving DecidableEq

/-- The successful return dictionary of `process_payment`. -/
structure PaySuccess where
  newBalance : Rat
  transactionId : String
deriving DecidableEq

/-- Lines 252-255: `patients.document(patient.id).update({'balance': ...,
'updatedAt': ...})` — every document with that id (unique in practice)
gets the new balance. -/
def updatePatientBalance (patients : List Patient) (pid : String)
    (newBalance : Rat) (now : String) : List Patient :=
  patients.map fun p =>
    if p.id = pid then { p with balance := newBalance, updatedAt := some now } else p

/-- The `transaction_data` dictionary of lines 258-268. -/
def paymentTransaction (patient_email : String) (amount : Rat)
    (appointment_id otp now pid : String) : Transaction :=
  { amount := amount, balanceAfter := 0, description := "Appointment payment - " ++ appointment_id
    timestamp := now, type := "appointment", userId := pid, status := "completed"
    otp := otp, patientEmail := patient_email }

/-- Lines 272-277: the appointment-status update after a payment. -/
def confirmAppointment (appointments : List (String × Appointment))
    (aid txnId now : String) : List (String × Appointment) :=
  appointments.map fun kv =>
    if kv.1 = aid then
      (kv.1, { kv.2 with isPaid := some true, paymentDate := some now
                         status := "confirmed", transactionId := some txnId })
    else kv

/-- Model of `process_payment`: OTP format check, patient lookup by email, funds
check, appointment lookup, then the debit, the ledger append, and the
appointment confirmation, in program order. `now` stands for the
`datetime.now()` timestamps and `txnId` for the store-assigned transaction
document id. Note the code compares the OTP against nothing (the issued
code is never persisted) and never reads `appointment.status` or
`appointment.isPaid`. -/
def process_payment (db : DB) (patient_email : String) (amount : Rat)
    (appointment_id otp now txnId : String) : Except PayError PaySuccess × DB :=
  if ¬ valid_otp_format otp then (.error .invalidOTP, db)
  else
    match get_patient_by_email db patient_email with
    | none => (.error .patientNotFound, db)
    | some patient =>
      let current_balance := patient.balance
      if current_balance < amount then (.error .insufficientFunds, db)
      else
        match db.appointments.lookup appointment_id with
        | none => (.error .appointmentNotFound, db)
        | some _ =>
          let new_balance := current_balance - amount
          let db1 : DB :=
            { db with patients := updatePatientBalance db.patients patient.id new_balance now }
          let txn :=
            { paymentTransaction patient_email amount appointment_id otp now patient.id with
              balanceAfter := new_balance }
          let db2 : DB := { db1 with transactions := db1.transactions ++ [(txnId, txn)] }
          let db3 : DB :=
            { db2 with appointments := confirmAppointment db2.appointments appointment_id txnId now }
          (.ok { newBalance := new_balance, transactionId := txnId }, db3)

/-- The truthiness test `handle_payment` applies to each extracted field
(line 441): `all([patient_email, amount, appointment_id, otp])`. A string
field is falsy when absent or empty; the float `amount` is falsy exactly
when it is 0. -/
def truthyStr : Option String → Bool
  | none => false
  | some s => !(s == "")

/-- Line 441 of `handle_payment`: the only validation of `amount` anywhere
in the payment path. -/
def handle_payment_fields_ok (patient_email : Option String) (amount : Rat)
    (appointment_id otp : Option String) : Bool :=
  truthyStr patient_email && !(amount == 0) && truthyStr appointment_id && truthyStr otp

/-- The arguments of one `process_payment` call. -/
structure PayCall where
  patientEmail : String
  amount : Rat
  appointmentId : String
  otp : String
  now : String
  txnId : String
deriving DecidableEq

/-- A sequence of `process_payment` calls run against the store in order. -/
def run_payments : DB → List PayCall → DB
  | db, [] => db
  | db, c :: cs =>
    run_payments (process_payment db c.patientEmail c.amount c.appointmentId c.otp c.now c.txnId).2 cs

/-- The invariant of §3 of the specification: no patient's stored balance
is negative. -/
def balancesNonneg (db : DB) : Prop :=
  ∀ p ∈ db.patients, 0 ≤ p.balance

instance (db : DB) : Decidable (balancesNonneg db) :=
  List.decidableBAll _ db.patients

/-! ## Concrete fixtures

A store with one doctor, one free slot and one funded patient, and the
states reached by booking that slot and paying for it. -/

def sampleSlot : TimeSlot :=
  { id := "S1", doctorId := "D123", date := "2024-06-01", startTime := "09:00", isBooked := false }

def sampleDoctor : Doctor :=
  { name := "Dr A", specialty := "cardiology", feeInPerson := some 150, feeTelemedicine := some 80 }

def samplePatient : Patient :=
  { id := "P1", email := "pat@example.com", balance := 500, updatedAt := none }

def sampleDB : DB :=
  { timeSlots := [sampleSlot], doctors := [("D123", sampleDoctor)]
    patients := [samplePatient], appointments := [], transactions := [] }

def samplePatientInfo : PatientInfo :=
  { id := "P1", name := "Pat", email := "pat@example.com" }

def rivalPatientInfo : PatientInfo :=
  { id := "P2", name := "Sam", email := "sam@example.com" }

/-- A fully resolved booking intent for the free slot of `sampleDB`. -/
def sampleIntent : AppointmentDetails :=
  { specialty := some "cardiology", doctorId := some "D123", doctorName := some "Dr A"
    date := some "2024-06-01", startTime := some "09:00", reason := some "checkup"
    type := some "in-person", endTime := some "09:30" }

/-- The store `sampleDB` after `book_appointment` succeeds with store-assigned
appointment id `abc123xyz` and issued OTP `123456`. -/
def bookedDB : DB :=
  (book_appointment sampleDB samplePatientInfo sampleIntent
    "2024-05-30T10:00:00" "20240530" "abc123xyz" "123456").db

/-- The store `bookedDB` after one successful `process_payment` call that consumed
the issued OTP. -/
def paidOnceDB : DB :=
  (process_payment bookedDB "pat@example.com" 150 "abc123xyz" "123456" "t1" "TX1").2

/-- The two-request race on the one free slot of `sampleDB`. -/
def sampleRace : BookOutcome × BookOutcome :=
  book_race sampleDB
    samplePatientInfo sampleIntent "2024-05-30T10:00:00" "20240530" "A1" "111111"
    rivalPatientInfo sampleIntent "2024-05-30T10:00:01" "20240530" "A2" "222222"

section ConcreteEvaluation

attribute [local semireducible] Rat.sub

/-- C1: the reservation is an availability query followed by a separate
unconditioned update, not an atomic conditional write: when two reservation
attempts for the same (doctorId, date, startTime) interleave as
query/query/write/write, both succeed and two Appointments are created for
the one slot, contradicting "at most one succeeds and the other fails with
SlotUnavailable". -/
theorem slot_reservation_race_both_succeed :
    sampleRace.1.result.isOk = true
    ∧ sampleRace.2.result.isOk = true
    ∧ sampleRace.2.db.appointments.map Prod.fst = ["A1", "A2"]
    ∧ sampleRace.2.db.appointments.map (fun kv => (kv.2.doctorId, kv.2.date, kv.2.startTime))
        = [("D123", "2024-06-01", "09:00"), ("D123", "2024-06-01", "09:00")] := by
  refine ⟨by decide, by decide, by decide, by decide⟩

/-- C2: `process_payment` never compares the supplied OTP with the code
issued at booking (the issued code is not even persisted): booking issues
OTP `123456`, yet a payment presenting the different 6-digit code `654321`
succeeds and debits the patient, where the claim requires rejection with
`InvalidOTP` and no state change. -/
theorem payment_accepts_mismatched_otp :
    (book_appointment sampleDB samplePatientInfo sampleIntent
        "2024-05-30T10:00:00" "20240530" "abc123xyz" "123456").result.isOk = true
    ∧ valid_otp_format "654321" = true
    ∧ (("654321" : String) = "123456") = False
    ∧ (process_payment bookedDB "pat@example.com" 150 "abc123xyz" "654321" "t1" "TX9").1
        = .ok { newBalance := 350, transactionId := "TX9" }
    ∧ get_patient_by_email
        (process_payment bookedDB "pat@example.com" 150 "abc123xyz" "654321" "t1" "TX9").2
        "pat@example.com"
        = some { id := "P1", email := "pat@example.com", balance := 350, updatedAt := some "t1" }
    ∧ (process_payment bookedDB "pat@example.com" 150 "abc123xyz" "654321" "t1" "TX9").2.transactions.length
        = 1 := by
  refine ⟨by decide, by decide, by decide, by decide, by decide, by decide⟩

/-- C3: `process_payment` never reads the appointment's `status` or
`isPaid`, so a second call with the same appointmentId and the
already-consumed OTP succeeds again and performs a second debit (balance
500 → 350 → 200, two ledger entries), where the claim requires the second
call to fail with `InvalidOTP` or `AppointmentAlreadyPaid` and never debit
twice. -/
theorem payment_replay_double_debit :
    (process_payment bookedDB "pat@example.com" 150 "abc123xyz" "123456" "t1" "TX1").1
        = .ok { newBalance := 350, transactionId := "TX1" }
    ∧ (paidOnceDB.appointments.lookup "abc123xyz").map Appointment.status = some "confirmed"
    ∧ (paidOnceDB.appointments.lookup "abc123xyz").map Appointment.isPaid = some (some true)
    ∧ (process_payment paidOnceDB "pat@example.com" 150 "abc123xyz" "123456" "t2" "TX2").1
        = .ok { newBalance := 200, transactionId := "TX2" }
    ∧ (process_payment paidOnceDB "pat@example.com" 150 "abc123xyz" "123456" "t2" "TX2").2.transactions.map
        Prod.fst = ["TX1", "TX2"]
    ∧ get_patient_by_email
        (process_payment paidOnceDB "pat@example.com" 150 "abc123xyz" "123456" "t2" "TX2").2
        "pat@example.com"
        = some { id := "P1", email := "pat@example.com", balance := 200, updatedAt := some "t2" } := by
  refine ⟨by decide, by decide, by decide, by decide, by decide, by decide⟩

/-- C7: in `book_appointment` the Appointment document is written first
(`appointments.add`) and the slot is marked booked only afterwards — the
opposite of the claimed order. Sequentially a `SlotUnavailable` failure
still performs no writes, but only because it is detected by the read-only
availability query, not because the reservation write comes first. -/
theorem booking_appointment_write_precedes_slot_write :
    (book_appointment sampleDB samplePatientInfo sampleIntent
        "2024-05-30T10:00:00" "20240530" "abc123xyz" "123456").writes
      = [WriteOp.addAppointment "abc123xyz", WriteOp.markSlotBooked "S1"]
    ∧ (book_appointment bookedDB rivalPatientInfo sampleIntent
        "2024-05-30T11:00:00" "20240530" "A7" "777777").result = .error .slotUnavailable
    ∧ (book_appointment bookedDB rivalPatientInfo sampleIntent
        "2024-05-30T11:00:00" "20240530" "A7" "777777").writes = []
    ∧ (book_appointment bookedDB rivalPatientInfo sampleIntent
        "2024-05-30T11:00:00" "20240530" "A7" "777777").db = bookedDB := by
  refine ⟨by decide, by decide, by decide, by decide⟩

/-- The booking intent whose `startTime` does not parse as `%H:%M`, as
`parse_appointment_details` returns it: `endTime` is unset. -/
def unparsableTimeIntent : AppointmentDetails :=
  parse_appointment_details
    { specialty := some "cardiology", doctorId := some "D123", doctorName := some "Dr A"
      date := some "2024-06-01", startTime := some "2 PM", reason := some "checkup"
      type := some "in-person" }

/-- C6 counterexample: for an intent whose `startTime` did not parse (so
`endTime` is unset), the booking attempt does fail and writes nothing, but
not with `IncompleteIntent`: the availability check's own `strptime` fails,
so the error reported is `SlotUnavailable`. -/
theorem booking_incomplete_intent_error_kind :
    unparsableTimeIntent.endTime = none
    ∧ (book_appointment sampleDB samplePatientInfo unparsableTimeIntent
        "2024-05-30T10:00:00" "20240530" "A9" "999999").result = .error .slotUnavailable
    ∧ (BookError.slotUnavailable = BookError.incompleteIntent) = False
    ∧ (book_appointment sampleDB samplePatientInfo unparsableTimeIntent
        "2024-05-30T10:00:00" "20240530" "A9" "999999").db = sampleDB := by
  refine ⟨by decide, by decide, by decide, by decide⟩

/-- C8 counterexample: a booking for appointment date `2024-06-01` made
when the wall clock reads 2025-01-15 gets confirmationNumber
`APT-20250115-abc123` — derived from `datetime.now()`, not from the
booking's appointment date as claimed. -/
theorem confirmation_number_wall_clock_counterexample :
    (book_appointment sampleDB samplePatientInfo sampleIntent
        "2025-01-15T09:00:00" "20250115" "abc123xyz" "123456").result
      = .ok { appointmentId := "abc123xyz", doctorName := "Dr A", date := "2024-06-01"
              time := "09:00", cost := 150, otp := "123456"
              confirmationNumber := "APT-20250115-abc123" }
    ∧ (("APT-20250115-abc123" : String) = "APT-20240601-abc123") = False := by
  refine ⟨by decide, by decide⟩

end ConcreteEvaluation

/-! ## Supporting lemmas -/

/-- The balance update touches only `balance` and `updatedAt`, so the
first patient found by email afterwards is the updated image of the first
one found before. -/
theorem find_email_updatePatientBalance (l : List Patient) (e pid : String)
    (nb : Rat) (now : String) :
    (updatePatientBalance l pid nb now).find? (fun p => p.email == e)
      = (l.find? (fun p => p.email == e)).map
          (fun p => if p.id = pid then { p with balance := nb, updatedAt := some now } else p) := by
  unfold updatePatientBalance
  rw [List.find?_map]
  have hpred :
      ((fun p => p.email == e) ∘ fun p =>
        if p.id = pid then { p with balance := nb, updatedAt := some now } else p)
      = (fun p : Patient => p.email == e) := by
    funext p
    by_cases h : p.id = pid <;> simp [h, Function.comp]
  rw [hpred]

/-- Confirming appointment `aid` rewrites exactly the documents stored
under that id. -/
theorem lookup_confirmAppointment (l : List (String × Appointment))
    (aid txnId now : String) :
    (confirmAppointment l aid txnId now).lookup aid
      = (l.lookup aid).map
          (fun a => { a with isPaid := some true, paymentDate := some now
                             status := "confirmed", transactionId := some txnId }) := by
  induction l with
  | nil => rfl
  | cons hd tl ih =>
    obtain ⟨k, v⟩ := hd
    by_cases hk : k = aid
    · subst hk
      simp [confirmAppointment, List.lookup_cons]
    · have hbeq : (aid == k) = false := beq_eq_false_iff_ne.mpr (fun h => hk h.symm)
      simp only [confirmAppointment, List.map_cons, if_neg hk]
      rw [List.lookup_cons, List.lookup_cons, hbeq]
      simpa [confirmAppointment] using ih

/-- What one `process_payment` call does when every guard passes: the
debit, the single appended ledger entry, and the appointment confirmation,
as one equation. -/
theorem process_payment_run (db : DB) (email : String) (amount : Rat)
    (aid otp now txnId : String) (patient : Patient) (appt : Appointment)
    (hv : valid_otp_format otp = true)
    (hp : get_patient_by_email db email = some patient)
    (hle : amount ≤ patient.balance)
    (ha : db.appointments.lookup aid = some appt) :
    process_payment db email amount aid otp now txnId
      = (.ok { newBalance := patient.balance - amount, transactionId := txnId },
         { db with
             patients := updatePatientBalance db.patients patient.id (patient.balance - amount) now
             transactions := db.transactions ++
               [(txnId, { paymentTransaction email amount aid otp now patient.id with
                            balanceAfter := patient.balance - amount })]
             appointments := confirmAppointment db.appointments aid txnId now }) := by
  have hnl : ¬ patient.balance < amount := not_lt.mpr hle
  simp only [process_payment, hv, hp, ha, hnl, not_true, if_false, ite_false]

/-- A successful `process_payment` implies every guard passed. -/
theorem process_payment_ok_guards (db : DB) (email : String) (amount : Rat)
    (aid otp now txnId : String) (s : PaySuccess)
    (hr : (process_payment db email amount aid otp now txnId).1 = .ok s) :
    valid_otp_format otp = true
    ∧ (∃ patient, get_patient_by_email db email = some patient ∧ amount ≤ patient.balance)
    ∧ (∃ appt, db.appointments.lookup aid = some appt) := by
  by_cases hv : valid_otp_format otp
  · cases hp : get_patient_by_email db email with
    | none => simp [process_payment, hv, hp] at hr
    | some patient =>
      by_cases hlt : patient.balance < amount
      · simp [process_payment, hv, hp, hlt] at hr
      · cases ha : db.appointments.lookup aid with
        | none => simp [process_payment, hv, hp, hlt, ha] at hr
        | some appt =>
          exact ⟨hv, ⟨patient, rfl, not_lt.mp hlt⟩, ⟨appt, rfl⟩⟩
  · simp [process_payment, hv] at hr

/-- A failed `process_payment` leaves the store untouched. -/
theorem process_payment_error_no_writes (db : DB) (email : String) (amount : Rat)
    (aid otp now txnId : String)
    (hr : (process_payment db email amount aid otp now txnId).1.isOk = false) :
    (process_payment db email amount aid otp now txnId).2 = db := by
  by_cases hv : valid_otp_format otp
  · cases hp : get_patient_by_email db email with
    | none => simp [process_payment, hv, hp]
    | some patient =>
      by_cases hlt : patient.balance < amount
      · simp [process_payment, hv, hp, hlt]
      · cases ha : db.appointments.lookup aid with
        | none => simp [process_payment, hv, hp, hlt, ha]
        | some appt => simp [process_payment, hv, hp, hlt, ha, Except.isOk, Except.toBool] at hr
  · simp [process_payment, hv]

/-! ## C4, C5, C10: the payment postconditions and invariants -/

/-- C4: for every successful payment, exactly one ledger entry is appended,
its `amount` is the paid amount and its `balanceAfter` is the balance
before the call minus the amount, the patient's stored balance equals that
`balanceAfter`, and the appointment ends `confirmed`, `isPaid = true`,
`transactionId` = the ledger entry's id. -/
theorem payment_success_ledger_and_confirmation
    (db : DB) (email : String) (amount : Rat) (aid otp now txnId : String)
    (patient : Patient) (appt : Appointment) (s : PaySuccess)
    (hp : get_patient_by_email db email = some patient)
    (ha : db.appointments.lookup aid = some appt)
    (hr : (process_payment db email amount aid otp now txnId).1 = .ok s) :
    s = { newBalance := patient.balance - amount, transactionId := txnId }
    ∧ (process_payment db email amount aid otp now txnId).2.transactions
        = db.transactions ++
          [(txnId, { amount := amount, balanceAfter := patient.balance - amount
                     description := "Appointment payment - " ++ aid, timestamp := now
                     type := "appointment", userId := patient.id, status := "completed"
                     otp := otp, patientEmail := email })]
    ∧ get_patient_by_email (process_payment db email amount aid otp now txnId).2 email
        = some { patient with balance := patient.balance - amount, updatedAt := some now }
    ∧ (process_payment db email amount aid otp now txnId).2.appointments.lookup aid
        = some { appt with isPaid := some true, paymentDate := some now
                           status := "confirmed", transactionId := some txnId } := by
  obtain ⟨hv, hex, -⟩ := process_payment_ok_guards db email amount aid otp now txnId s hr
  obtain ⟨patient1, hp1, hle1⟩ := hex
  have hpp : patient1 = patient := by
    rw [hp] at hp1
    exact (Option.some.inj hp1).symm
  subst hpp
  have hrun := process_payment_run db email amount aid otp now txnId patient1 appt hv hp hle1 ha
  rw [hrun] at hr
  refine ⟨(Except.ok.inj hr).symm, ?_, ?_, ?_⟩
  · rw [hrun]
    rfl
  · rw [hrun]
    show (updatePatientBalance db.patients patient1.id (patient1.balance - amount) now).find?
        (fun p => p.email == email) = _
    rw [find_email_updatePatientBalance]
    have hfind : db.patients.find? (fun p => p.email == email) = some patient1 := hp
    rw [hfind]
    simp
  · rw [hrun]
    show (confirmAppointment db.appointments aid txnId now).lookup aid = _
    rw [lookup_confirmAppointment, ha]
    rfl

/-- A single `process_payment` call keeps every stored balance
non-negative: all failure paths leave the store unchanged, and the success
path only runs when `amount ≤ balance`, making the one written balance
`balance - amount ≥ 0`. -/
theorem process_payment_preserves_nonneg (db : DB) (email : String) (amount : Rat)
    (aid otp now txnId : String) (h : balancesNonneg db) :
    balancesNonneg (process_payment db email amount aid otp now txnId).2 := by
  by_cases hv : valid_otp_format otp
  · cases hp : get_patient_by_email db email with
    | none => simpa [process_payment, hv, hp] using h
    | some patient =>
      by_cases hlt : patient.balance < amount
      · simpa [process_payment, hv, hp, hlt] using h
      · cases ha : db.appointments.lookup aid with
        | none => simpa [process_payment, hv, hp, hlt, ha] using h
        | some appt =>
          rw [process_payment_run db email amount aid otp now txnId patient appt
            (by simpa using hv) hp (not_lt.mp hlt) ha]
          intro p hmem
          have hmem1 : p ∈ updatePatientBalance db.patients patient.id
              (patient.balance - amount) now := hmem
          unfold updatePatientBalance at hmem1
          obtain ⟨q, hq, rfl⟩ := List.mem_map.mp hmem1
          by_cases hid : q.id = patient.id
          · rw [if_pos hid]
            have : (0 : Rat) ≤ patient.balance - amount := by
              have := not_lt.mp hlt
              linarith
            simpa using this
          · rw [if_neg hid]
            exact h q hq
  · simpa [process_payment, hv] using h

/-- The non-negativity invariant survives any sequence of payment calls. -/
theorem run_payments_nonneg (calls : List PayCall) (db : DB)
    (h : balancesNonneg db) : balancesNonneg (run_payments db calls) := by
  induction calls generalizing db with
  | nil => exact h
  | cons c cs ih =>
    exact ih _ (process_payment_preserves_nonneg db c.patientEmail c.amount
      c.appointmentId c.otp c.now c.txnId h)

/-- C5: starting from a store whose balances are all non-negative, no
sequence of payment calls ever produces a negative stored balance; and a
call on a patient whose balance is below the (well-formed-OTP) requested
amount fails with `InsufficientFunds` before any write. -/
theorem payment_balance_never_negative
    (db : DB) (calls : List PayCall) (email : String) (amount : Rat)
    (aid otp now txnId : String) (patient : Patient)
    (h : balancesNonneg db)
    (hv : valid_otp_format otp = true)
    (hp : get_patient_by_email db email = some patient)
    (hlt : patient.balance < amount) :
    balancesNonneg (run_payments db calls)
    ∧ (process_payment db email amount aid otp now txnId).1 = .error .insufficientFunds
    ∧ (process_payment db email amount aid otp now txnId).2 = db := by
  refine ⟨run_payments_nonneg calls db h, ?_, ?_⟩ <;>
    simp [process_payment, hv, hp, hlt]

/-- C10: `process_payment` never checks the sign of `amount`: a negative
amount with a well-formed OTP, an existing patient of non-negative balance
and an existing appointment succeeds, strictly increases the patient's
balance (new balance = balance − amount > balance), and appends a ledger
entry carrying the negative amount; only `handle_payment`'s falsy-field
test excludes `amount` exactly 0, and it passes every nonzero amount whose
companion fields are non-empty. -/
theorem payment_negative_amount_credits_balance
    (db : DB) (email : String) (amount : Rat) (aid otp now txnId : String)
    (patient : Patient) (appt : Appointment)
    (hneg : amount < 0)
    (hv : valid_otp_format otp = true)
    (hp : get_patient_by_email db email = some patient)
    (hb : 0 ≤ patient.balance)
    (ha : db.appointments.lookup aid = some appt) :
    (process_payment db email amount aid otp now txnId).1
      = .ok { newBalance := patient.balance - amount, transactionId := txnId }
    ∧ patient.balance < patient.balance - amount
    ∧ (process_payment db email amount aid otp now txnId).2.transactions
        = db.transactions ++
          [(txnId, { amount := amount, balanceAfter := patient.balance - amount
                     description := "Appointment payment - " ++ aid, timestamp := now
                     type := "appointment", userId := patient.id, status := "completed"
                     otp := otp, patientEmail := email })]
    ∧ handle_payment_fields_ok (some email) 0 (some aid) (some otp) = false
    ∧ handle_payment_fields_ok (some email) amount (some aid) (some otp)
        = (truthyStr (some email) && truthyStr (some aid) && truthyStr (some otp)) := by
  have hle : amount ≤ patient.balance := le_trans (le_of_lt hneg) hb
  have hrun := process_payment_run db email amount aid otp now txnId patient appt hv hp hle ha
  refine ⟨?_, ?_, ?_, ?_, ?_⟩
  · rw [hrun]
  · linarith
  · rw [hrun]
    rfl
  · simp [handle_payment_fields_ok]
  · have hz : (amount == 0) = false := beq_eq_false_iff_ne.mpr (ne_of_lt hneg)
    simp only [handle_payment_fields_ok, hz, Bool.not_false, Bool.and_true]

/-! ## C6, C8, C9: booking preconditions, confirmation number, end-time
derivation -/

/-- The read-only phase of booking can only succeed when every required
intent field is present. -/
theorem book_phase1_ok_fields (db : DB) (p : PatientInfo) (d : AppointmentDetails)
    (now : String) (plan : BookingPlan)
    (hok : book_phase1 db p d now = .ok plan) :
    d.doctorId.isSome = true ∧ d.date.isSome = true ∧ d.startTime.isSome = true
    ∧ d.type.isSome = true ∧ d.endTime.isSome = true ∧ d.reason.isSome = true := by
  unfold book_phase1 at hok
  repeat' split at hok
  all_goals simp_all

/-- C6 amended: for every intent missing a required field or with `endTime`
unset, the booking attempt fails and performs no writes — no Appointment is
created and no slot is marked booked. (The failure is reported as
`SlotUnavailable` or as the generic booking exception from the missing key,
not as a distinct `IncompleteIntent` error: no precondition check exists.) -/
theorem booking_incomplete_intent_no_writes
    (db : DB) (p : PatientInfo) (d : AppointmentDetails)
    (now nowDate8 apptId otp : String)
    (h : d.doctorId = none ∨ d.date = none ∨ d.startTime = none ∨ d.type = none
         ∨ d.endTime = none ∨ d.reason = none) :
    (book_appointment db p d now nowDate8 apptId otp).result.isOk = false
    ∧ (book_appointment db p d now nowDate8 apptId otp).db = db
    ∧ (book_appointment db p d now nowDate8 apptId otp).writes = [] := by
  cases hres : book_phase1 db p d now with
  | error e =>
    simp [book_appointment, book_commit, hres, Except.isOk, Except.toBool]
  | ok plan =>
    exfalso
    obtain ⟨h1, h2, h3, h4, h5, h6⟩ := book_phase1_ok_fields db p d now plan hres
    rcases h with h | h | h | h | h | h <;> simp_all

/-- C8 amended: every successful booking's `confirmationNumber` has the
shape `APT-<YYYYMMDD of the wall clock at the call>-<first 6 characters of
the appointment id>`; the wall-clock component, not the appointment date,
is what precedes the id prefix. -/
theorem confirmation_number_format
    (db : DB) (p : PatientInfo) (d : AppointmentDetails)
    (now nowDate8 apptId otp : String) (r : BookingSuccess)
    (hr : (book_appointment db p d now nowDate8 apptId otp).result = .ok r) :
    r.confirmationNumber = "APT-" ++ nowDate8 ++ "-" ++ strTake apptId 6
    ∧ r.appointmentId = apptId
    ∧ r.otp = otp := by
  cases hres : book_phase1 db p d now with
  | error e => simp [book_appointment, book_commit, hres] at hr
  | ok plan =>
    simp only [book_appointment, book_commit, hres] at hr
    obtain rfl := Except.ok.inj hr
    exact ⟨rfl, rfl, rfl⟩

/-- C9: whenever the extracted `startTime` is present, the returned
intent's `endTime` is the `%H:%M` parse of `startTime` advanced by 30
minutes and re-rendered — `some` exactly when the parse succeeds, and
absent when it fails. -/
theorem parse_details_derives_end_time (raw : RawIntent) (s : String)
    (hs : raw.startTime = some s) :
    (parse_appointment_details raw).endTime
      = (parseHHMM s).map (fun t => formatHHMM (addMinutes t 30))
    ∧ (parse_appointment_details raw).startTime = some s := by
  constructor
  · simp [parse_appointment_details, hs]
  · simpa [parse_appointment_details] using hs

/-! ## Witnesses: concrete instantiations of the conditional theorems -/

/-- The Appointment document `book_appointment` stores in `bookedDB`. -/
def bookedAppointment : Appointment :=
  { createdAt := "2024-05-30T10:00:00", date := "2024-06-01", doctorId := "D123"
    doctorName := "Dr A", endTime := "09:30", notes := "", patientEmail := "pat@example.com"
    patientId := "P1", patientName := "Pat", reason := "checkup", specialty := "cardiology"
    startTime := "09:00", status := "pending_payment", type := "in-person"
    updatedAt := "2024-05-30T10:00:00", cost := 150, isPaid := none, paymentDate := none
    transactionId := none }

/-- The result dictionary of the successful `sampleDB` booking. -/
def sampleBookingResult : BookingSuccess :=
  { appointmentId := "abc123xyz", doctorName := "Dr A", date := "2024-06-01"
    time := "09:00", cost := 150, otp := "123456"
    confirmationNumber := "APT-20240530-abc123" }

/-- An intent complete except for its `reason` field. -/
def missingReasonIntent : AppointmentDetails :=
  { specialty := some "cardiology", doctorId := some "D123", doctorName := some "Dr A"
    date := some "2024-06-01", startTime := some "09:00", reason := none
    type := some "in-person", endTime := some "09:30" }

/-- Regex-extracted fields with a parsable `startTime`. -/
def rawIntent1400 : RawIntent :=
  { specialty := some "cardiology", doctorId := some "D123", doctorName := some "Dr A"
    date := some "2024-06-01", startTime := some "14:00", reason := some "checkup"
    type := some "in-person" }

/-- Regex-extracted fields whose `startTime` does not parse as `%H:%M`. -/
def rawIntent2PM : RawIntent :=
  { specialty := some "cardiology", doctorId := some "D123", doctorName := some "Dr A"
    date := some "2024-06-01", startTime := some "2 PM", reason := some "checkup"
    type := some "in-person" }

section WitnessEvaluation

attribute [local semireducible] Rat.sub Rat.add Rat.mul

/-- C4 witness: the payment of 150 against `bookedDB` exhibits the
postcondition with every quantity evaluated. -/
theorem payment_success_ledger_and_confirmation_witness :
    get_patient_by_email bookedDB "pat@example.com" = some samplePatient
    ∧ bookedDB.appointments.lookup "abc123xyz" = some bookedAppointment
    ∧ (process_payment bookedDB "pat@example.com" 150 "abc123xyz" "123456" "t1" "TX1").1
        = .ok { newBalance := 350, transactionId := "TX1" }
    ∧ (({ newBalance := 350, transactionId := "TX1" } : PaySuccess)
          = { newBalance := samplePatient.balance - 150, transactionId := "TX1" }
       ∧ (process_payment bookedDB "pat@example.com" 150 "abc123xyz" "123456" "t1" "TX1").2.transactions
          = bookedDB.transactions ++
            [("TX1", { amount := 150, balanceAfter := samplePatient.balance - 150
                       description := "Appointment payment - " ++ "abc123xyz", timestamp := "t1"
                       type := "appointment", userId := samplePatient.id, status := "completed"
                       otp := "123456", patientEmail := "pat@example.com" })]
       ∧ get_patient_by_email
            (process_payment bookedDB "pat@example.com" 150 "abc123xyz" "123456" "t1" "TX1").2
            "pat@example.com"
          = some { samplePatient with balance := samplePatient.balance - 150, updatedAt := some "t1" }
       ∧ (process_payment bookedDB "pat@example.com" 150 "abc123xyz" "123456" "t1" "TX1").2.appointments.lookup
            "abc123xyz"
          = some { bookedAppointment with isPaid := some true, paymentDate := some "t1"
                                          status := "confirmed", transactionId := some "TX1" }) :=
  ⟨by decide, by decide, by decide,
   payment_success_ledger_and_confirmation bookedDB "pat@example.com" 150 "abc123xyz" "123456"
     "t1" "TX1" samplePatient bookedAppointment { newBalance := 350, transactionId := "TX1" }
     (by decide) (by decide) (by decide)⟩

/-- C5 witness: a one-call sequence on `sampleDB` requesting 600 from a
balance of 500. -/
theorem payment_balance_never_negative_witness :
    balancesNonneg sampleDB
    ∧ valid_otp_format "123456" = true
    ∧ get_patient_by_email sampleDB "pat@example.com" = some samplePatient
    ∧ samplePatient.balance < 600
    ∧ (balancesNonneg
        (run_payments sampleDB [⟨"pat@example.com", 600, "X1", "123456", "t9", "TX0"⟩])
       ∧ (process_payment sampleDB "pat@example.com" 600 "X1" "123456" "t9" "TX0").1
          = .error .insufficientFunds
       ∧ (process_payment sampleDB "pat@example.com" 600 "X1" "123456" "t9" "TX0").2 = sampleDB) :=
  ⟨by decide, by decide, by decide, by decide,
   payment_balance_never_negative sampleDB
     [⟨"pat@example.com", 600, "X1", "123456", "t9", "TX0"⟩]
     "pat@example.com" 600 "X1" "123456" "t9" "TX0" samplePatient
     (by decide) (by decide) (by decide) (by decide)⟩

/-- C6 witness: an intent lacking only `reason` makes the booking fail with
no writes. -/
theorem booking_incomplete_intent_no_writes_witness :
    missingReasonIntent.reason = none
    ∧ ((book_appointment sampleDB samplePatientInfo missingReasonIntent
          "t0" "20240530" "A8" "888888").result.isOk = false
       ∧ (book_appointment sampleDB samplePatientInfo missingReasonIntent
          "t0" "20240530" "A8" "888888").db = sampleDB
       ∧ (book_appointment sampleDB samplePatientInfo missingReasonIntent
          "t0" "20240530" "A8" "888888").writes = []) :=
  ⟨rfl,
   booking_incomplete_intent_no_writes sampleDB samplePatientInfo missingReasonIntent
     "t0" "20240530" "A8" "888888"
     (Or.inr (Or.inr (Or.inr (Or.inr (Or.inr rfl)))))⟩

/-- C8 witness: the successful `sampleDB` booking carries a
confirmationNumber of the wall-clock format. -/
theorem confirmation_number_format_witness :
    (book_appointment sampleDB samplePatientInfo sampleIntent
        "2024-05-30T10:00:00" "20240530" "abc123xyz" "123456").result = .ok sampleBookingResult
    ∧ ("APT-" ++ "20240530" ++ "-" ++ strTake "abc123xyz" 6 : String) = "APT-20240530-abc123"
    ∧ (sampleBookingResult.confirmationNumber
          = "APT-" ++ "20240530" ++ "-" ++ strTake "abc123xyz" 6
       ∧ sampleBookingResult.appointmentId = "abc123xyz"
       ∧ sampleBookingResult.otp = "123456") :=
  ⟨by decide, by decide,
   confirmation_number_format sampleDB samplePatientInfo sampleIntent
     "2024-05-30T10:00:00" "20240530" "abc123xyz" "123456" sampleBookingResult (by decide)⟩

/-- C9 witness: `startTime` 14:00 yields `endTime` 14:30; unparsable
`2 PM` yields no `endTime`. -/
theorem parse_details_derives_end_time_witness :
    rawIntent1400.startTime = some "14:00"
    ∧ ((parse_appointment_details rawIntent1400).endTime
          = (parseHHMM "14:00").map (fun t => formatHHMM (addMinutes t 30))
       ∧ (parse_appointment_details rawIntent1400).startTime = some "14:00")
    ∧ (parse_appointment_details rawIntent1400).endTime = some "14:30"
    ∧ rawIntent2PM.startTime = some "2 PM"
    ∧ parseHHMM "2 PM" = none
    ∧ (parse_appointment_details rawIntent2PM).endTime = none :=
  ⟨rfl, parse_details_derives_end_time rawIntent1400 "14:00" rfl,
   by decide, rfl, by decide, by decide⟩

/-- C10 witness: a payment of −50 against `bookedDB` credits the wallet:
500 → 550. -/
theorem payment_negative_amount_credits_balance_witness :
    ((-50 : Rat) < 0)
    ∧ valid_otp_format "999999" = true
    ∧ get_patient_by_email bookedDB "pat@example.com" = some samplePatient
    ∧ (0 ≤ samplePatient.balance)
    ∧ bookedDB.appointments.lookup "abc123xyz" = some bookedAppointment
    ∧ samplePatient.balance - (-50) = 550
    ∧ ((process_payment bookedDB "pat@example.com" (-50) "abc123xyz" "999999" "t5" "TX5").1
          = .ok { newBalance := samplePatient.balance - (-50), transactionId := "TX5" }
       ∧ samplePatient.balance < samplePatient.balance - (-50)
       ∧ (process_payment bookedDB "pat@example.com" (-50) "abc123xyz" "999999" "t5" "TX5").2.transactions
          = bookedDB.transactions ++
            [("TX5", { amount := -50, balanceAfter := samplePatient.balance - (-50)
                       description := "Appointment payment - " ++ "abc123xyz", timestamp := "t5"
                       type := "appointment", userId := samplePatient.id, status := "completed"
                       otp := "999999", patientEmail := "pat@example.com" })]
       ∧ handle_payment_fields_ok (some "pat@example.com") 0 (some "abc123xyz") (some "999999") = false
       ∧ handle_payment_fields_ok (some "pat@example.com") (-50) (some "abc123xyz") (some "999999")
          = (truthyStr (some "pat@example.com") && truthyStr (some "abc123xyz")
              && truthyStr (some "999999"))) :=
  ⟨by decide, by decide, by decide, by decide, by decide, by decide,
   payment_negative_amount_credits_balance bookedDB "pat@example.com" (-50) "abc123xyz"
     "999999" "t5" "TX5" samplePatient bookedAppointment
     (by decide) (by decide) (by decide) (by decide) (by decide)⟩

end WitnessEvaluation

end MediCare
